import Mathlib

/-!
Verification of the page-navigation and live-refresh core of the `axe`
terminal dashboard (Go).  The Go source is shallowly embedded: the mutable
fields of `AppView` become a Lean structure, methods become pure
state-transition functions, goroutine channels become explicit counters of
pending senders, and `context.Context` cancellation becomes a generation id
together with a set of cancelled generations.
-/

namespace Axe

/-- `tview.Primitive` values that the core manipulates, by identity only.
`goNil` is the Go nil pointer (the zero value a map lookup yields for a
missing key); `menuComposite` is the `tview.Pages` built by `ShowMenu`
stacking the menu decor over the current page; `menuView` is the menu
panel itself. -/
inductive Prim where
  | table (kind : String)
  | menuComposite (base : Prim)
  | menuView
  | goNil
deriving DecidableEq

/-- `PageTrack` from the source: the `{PageName, Primitive}` record pushed
onto the draw queue by `SwitchPage`. -/
structure PageTrack where
  pageName : String
  primitive : Prim
deriving DecidableEq

/-- Modelled from the spec: the `RootPage` constant (the well-known root
page name; its definition is outside the provided source files, and the
spec scenario calls it "root"). -/
def RootPage : String := "root"

/-- The root page table view registered by `Init`. -/
def rootView : Prim := Prim.table RootPage

/-- Modelled from the spec: the root-page sentinel that
`PrimitiveQueue.Last` yields on an empty queue (spec 4.2: "returns the
current top without removing it, or the root-page sentinel if empty"). -/
def rootTrack : PageTrack := ⟨RootPage, rootView⟩

namespace Queue

/-- Modelled from the spec: `PrimitiveQueue.Enqueue` (the implementation is
outside the provided source files).  Spec 4.2: "appends to the end. No
deduplication, no cap." -/
def enqueue (q : List PageTrack) (t : PageTrack) : List PageTrack := q ++ [t]

/-- Modelled from the spec: `PrimitiveQueue.Dequeue`.  Spec 4.2: "removes
and discards the last element; no-op (not an error) if empty." -/
def dequeue (q : List PageTrack) : List PageTrack := q.dropLast

/-- Modelled from the spec: `PrimitiveQueue.Last`.  Spec 4.2: "returns the
current top without removing it, or the root-page sentinel if empty." -/
def last (q : List PageTrack) : PageTrack := q.getLast?.getD rootTrack

/-- Modelled from the spec: `PrimitiveQueue.Empty`.  Spec 4.2: "true if no
elements remain." -/
def emptyQ (q : List PageTrack) : Bool := q.isEmpty

end Queue

/-- The Go `position` struct: a remembered (row, column) selection. -/
structure position where
  row : Int
  column : Int
deriving DecidableEq

/-- The mutable state of `AppView` that the navigation core touches.
`switchSignals` counts the sends into the `switchPage` channel (the
cancellation+restart signal); `shownPage`/`shownPrim` are the page the
content surface currently displays (the effect of
`content.AddAndSwitchToPage`); `focus` is the `SetFocus` target. -/
structure AppState where
  currentPage : String
  drawQueue : List PageTrack
  tableViews : List (String × Prim)
  pageRows : List (String × position)
  showMenu : Bool
  switchSignals : Nat
  shownPage : String
  shownPrim : Prim
  focus : Prim
deriving DecidableEq

/-- Go map lookup in `app.tableViews`: the first binding for the key, or
`none` when the key is absent. -/
def lookupView (m : List (String × Prim)) (k : String) : Option Prim :=
  (m.find? (fun kv => kv.1 == k)).map (fun kv => kv.2)

/-- `AppView.SwitchPage` (source part_000 lines 145-158): under the lock,
if the name differs from `currentPage` it updates the pointer and sends one
signal on the `switchPage` channel; then unconditionally it adds-and-
switches the content page, enqueues `{page, p}` on the draw queue, and
focuses `p`. -/
def SwitchPage (s : AppState) (page : String) (p : Prim) : AppState :=
  let s1 :=
    if s.currentPage ≠ page then
      { s with currentPage := page, switchSignals := s.switchSignals + 1 }
    else s
  { s1 with
    shownPage := page
    shownPrim := p
    drawQueue := Queue.enqueue s1.drawQueue ⟨page, p⟩
    focus := p }

/-- `AppView.CurrentPage` (source part_000 lines 160-162): returns
`app.tableViews[app.currentPage]`; a Go map lookup of a missing key yields
the zero value, the nil pointer, modelled as `Prim.goNil`. -/
def CurrentPage (s : AppState) : Prim :=
  (lookupView s.tableViews s.currentPage).getD Prim.goNil

/-- `AppView.LastPage` (source part_000 lines 164-169): dequeues the draw
queue, reads its new top, adds-and-switches the content to that entry and
focuses its primitive.  It does not touch `currentPage`. -/
def LastPage (s : AppState) : AppState :=
  let q := Queue.dequeue s.drawQueue
  let page := Queue.last q
  { s with
    drawQueue := q
    shownPage := page.pageName
    shownPrim := page.primitive
    focus := page.primitive }

/-- `tableView.ShowMenu` (source part_001 lines 278-287): when the menu is
not already showing, builds a pages composite of `app.CurrentPage()` and
the centred menu view, switches to it under the current page name, focuses
the menu view and sets `showMenu`; otherwise does nothing. -/
def ShowMenu (s : AppState) : AppState :=
  if !s.showMenu then
    let newpage := Prim.menuComposite (CurrentPage s)
    let s1 := SwitchPage s s.currentPage newpage
    { s1 with focus := Prim.menuView, showMenu := true }
  else s

/-- The state right before `Init` runs: empty queue, root view registered,
no current page yet (Go zero value ""). -/
def preInitState : AppState :=
  { currentPage := ""
    drawQueue := []
    tableViews := [(RootPage, rootView)]
    pageRows := []
    showMenu := false
    switchSignals := 0
    shownPage := ""
    shownPrim := Prim.goNil
    focus := Prim.goNil }

/-- `AppView.Init` (source part_000 line 88) ends the navigation setup with
`app.content.SwitchPage(RootPage, app.tableViews[RootPage])`, which through
struct embedding is `AppView.SwitchPage`. -/
def initState : AppState := SwitchPage preInitState RootPage rootView

/-! ## Refresh coordinator

`tableView.run(ctx)` is a loop selecting between a receive on the page's
`sync` channel and `ctx.Done()`.  We embed one execution of the loop as a
fold over the ordered list of events the select statement observes. -/

/-- An event observed by the select statement inside `tableView.run`:
either a refresh signal received from the `sync` channel, tagged with the
outcome of the `dataSource.Refresh()` call it triggers, or the context
cancellation notification. -/
inductive RunEvent where
  | sync (fetchOk : Bool)
  | cancel
deriving DecidableEq

/-- Outcome of `tableView.refresh` (source part_001 lines 130-139): when
the data fetch fails the error is returned and `t.draw()` is not invoked;
on success the table is redrawn. -/
structure RefreshOutcome where
  drew : Bool
  errored : Bool
deriving DecidableEq

/-- `tableView.refresh` (source part_001 lines 130-139): `dataSource.Refresh()`
then, only on success, `t.draw()`. -/
def tableRefresh (fetchOk : Bool) : RefreshOutcome :=
  if fetchOk then ⟨true, false⟩ else ⟨false, true⟩

/-- Observable effects of one `tableView.run` execution: how many times
`t.draw()` re-rendered, how many times `UpdateStatus` surfaced an error,
and whether the loop returned. -/
structure RunResult where
  draws : Nat
  statusUpdates : Nat
  exited : Bool
deriving DecidableEq

/-- `tableView.run` (source part_001 lines 105-117) over the list of events
its select statement observes, in order: a `sync` event triggers
`t.refresh()` — on error `t.UpdateStatus(err, true)` — and the loop
continues; `ctx.Done()` makes the loop return, ignoring any later event. -/
def run : List RunEvent → RunResult
  | [] => ⟨0, 0, false⟩
  | RunEvent.cancel :: _ => ⟨0, 0, true⟩
  | RunEvent.sync fetchOk :: rest =>
    let r := run rest
    let o := tableRefresh fetchOk
    { r with
      draws := r.draws + (if o.drew then 1 else 0)
      statusUpdates := r.statusUpdates + (if o.errored then 1 else 0) }

/-- The page's `sync` channel.  `init` (source part_001 lines 79-81) creates
it with `make(chan struct\x7b\x7d, 0)`: an unbuffered channel, so its state
is the number of sender goroutines currently blocked on it. -/
structure SyncChan where
  pendingSenders : Nat
deriving DecidableEq

/-- The channel as `tableView.init` creates it: unbuffered, no sender yet. -/
def initSync : SyncChan := ⟨0⟩

/-- `tableView.Refresh` (source part_001 lines 268-272): spawns a goroutine
that performs a blocking send on the unbuffered `sync` channel, and returns
to the caller immediately.  The new sender stays pending until a receive
matches it. -/
def Refresh (c : SyncChan) : SyncChan := ⟨c.pendingSenders + 1⟩

/-- Go semantics of an unbuffered channel with a live receiver: every
pending blocked sender is matched by exactly one receive, none is dropped.
The loop therefore observes one `sync` event per pending sender; `fetchOk`
is the outcome of the fetch each one triggers. -/
def delivered (c : SyncChan) (fetchOk : Bool) : List RunEvent :=
  List.replicate c.pendingSenders (RunEvent.sync fetchOk)

/-! ## Cancellation scopes

`Init` (source part_000 line 75) runs
`app.context, app.cancel = context.WithCancel(context.Background())` once.
`watch` (source part_000 lines 110-118) handles every signal on the
`switchPage` channel by calling `app.cancel()` and then
`app.tableViews[app.currentPage].run(app.context)`; neither `watch` nor any
other code ever assigns `app.context` or `app.cancel` again.  Contexts are
embedded as generation ids with a cancelled set. -/

/-- The context state of `AppView`: the generation id held in
`app.context`, and the set of generations that have been cancelled (a Go
context stays cancelled forever). -/
structure CtxState where
  appCtx : Nat
  cancelled : List Nat
deriving DecidableEq

/-- After `Init`: one fresh context, generation 0, not cancelled. -/
def initCtx : CtxState := ⟨0, []⟩

/-- One `run` activation as performed by `watch`: which context generation
was passed to `run`, and whether that context was already cancelled when
`run` started. -/
structure Activation where
  ctxGen : Nat
  cancelledAtStart : Bool
deriving DecidableEq

/-- `AppView.watch` (source part_000 lines 110-118) processing `n` signals
from the `switchPage` channel: each iteration calls `app.cancel()` — which
cancels the generation currently in `app.context` — and then synchronously
runs the current page's loop with that same `app.context`, which is never
reassigned. -/
def watchSteps : CtxState → Nat → List Activation
  | _, 0 => []
  | s, n + 1 =>
    let afterCancel : CtxState := { s with cancelled := s.appCtx :: s.cancelled }
    ⟨afterCancel.appCtx, afterCancel.cancelled.contains afterCancel.appCtx⟩ ::
      watchSteps afterCancel n

/-! ## Position memory -/

/-- The `SetSelectionChangedFunc` callback installed by `tableView.init`
(source part_001 lines 93-98): on every selection change it overwrites
`app.pageRows[kind]` with the new position.  Go map assignment is modelled
by prepending the binding; `find?` yields the most recent one. -/
def Record (rows : List (String × position)) (kind : String) (r c : Int) :
    List (String × position) :=
  (kind, ⟨r, c⟩) :: rows

/-- The restore step of `tableView.init` (source part_001 lines 83-85): if
`app.pageRows` has an entry for the page kind, the table selection is set
to it; otherwise the selection keeps its prior value `dflt`. -/
def restoredSelection (rows : List (String × position)) (kind : String)
    (dflt : position) : position :=
  ((rows.find? (fun kv => kv.1 == kind)).map (fun kv => kv.2)).getD dflt

/-! ## Concrete states used by the scenario theorems -/

/-- The pods table view. -/
def podsView : Prim := Prim.table "pods"

/-- The deployments table view. -/
def deploymentsView : Prim := Prim.table "deployments"

/-- State after `Init` and one `SwitchPage("pods", podsView)`. -/
def sOnPods : AppState := SwitchPage initState "pods" podsView

/-- State after `Init`, `SwitchPage("pods")`, `SwitchPage("deployments")`. -/
def sPodsDeploy : AppState := SwitchPage sOnPods "deployments" deploymentsView

/-- A state whose Current Page Pointer names a page with no registration
in `tableViews` (only the root view is registered). -/
def sUnregistered : AppState := { initState with currentPage := "pods" }

/-! ## Helper lemmas -/

/-- Boolean equality of a refresh event and the cancellation event. -/
theorem sync_beq_cancel (b : Bool) :
    (RunEvent.sync b == RunEvent.cancel) = false := by
  cases b <;> rfl

/-- Boolean equality of two refresh events reduces to that of their fetch
outcomes. -/
theorem sync_beq_sync (a b : Bool) :
    (RunEvent.sync a == RunEvent.sync b) = (a == b) := by
  cases a <;> cases b <;> rfl

/-- A run over `n` delivered refresh signals whose fetches all succeed
draws `n` times, surfaces no error, and does not exit. -/
theorem run_replicate_sync_true (n : Nat) :
    run (List.replicate n (RunEvent.sync true)) = ⟨n, 0, false⟩ := by
  induction n with
  | zero => rfl
  | succ k ih => simp [List.replicate, run, tableRefresh, ih]

/-! ## Claim theorems -/

/-- C1: the claim says every page activation gets a fresh, never-reused
cancellation scope and exactly one refresh loop stays actively watching.
The code contradicts this: `Init` creates one context and `watch` cancels
that same context before every `run` activation, never creating another,
so every activation is handed context generation `s.appCtx` — the same
generation every time — and that context is already cancelled when the
loop starts, for every signal in any sequence of page switches. -/
theorem c1_context_never_fresh (s : CtxState) (n : Nat) :
    watchSteps s n = List.replicate n ⟨s.appCtx, true⟩ := by
  induction n generalizing s with
  | zero => rfl
  | succ k ih => simp [watchSteps, List.replicate, ih, List.contains_cons]

/-- Concretely, after the three switch signals of a
root → pods → deployments navigation, all three loop activations received
the generation-0 context of `Init`, already cancelled. -/
theorem watchSteps_three_switches :
    watchSteps initCtx 3 =
      [⟨0, true⟩, ⟨0, true⟩, ⟨0, true⟩] := by
  decide

/-- C2 counterexample: the claim says two `Refresh()` calls issued before
the loop has processed the first coalesce into exactly one re-render.  In
the code the `sync` channel is unbuffered, both spawned senders block and
both are delivered, so the loop re-renders twice, not once. -/
theorem c2_counterexample :
    (run (delivered (Refresh (Refresh initSync)) true)).draws = 2 ∧
    ¬ (run (delivered (Refresh (Refresh initSync)) true)).draws = 1 := by
  decide

/-- C2 amended: `Refresh` is fire-and-forget in that the blocking send
happens in a spawned goroutine, so the caller never waits; but pending
requests are not coalesced: each `Refresh` adds one blocked sender on the
unbuffered channel, every pending sender is delivered, and `n` pending
requests produce exactly `n` re-renders (two produce two). -/
theorem c2_refresh_queues_not_coalesces (c : SyncChan) (n : Nat) :
    (Refresh c).pendingSenders = c.pendingSenders + 1 ∧
    (run (delivered ⟨n⟩ true)).draws = n ∧
    (run (delivered ⟨n⟩ true)).exited = false := by
  refine ⟨rfl, ?_, ?_⟩ <;> simp [delivered, run_replicate_sync_true]

/-- C3: starting on root, after `SwitchPage("pods")` and
`SwitchPage("deployments")`, one `LastPage()` call displays "pods" and a
second `LastPage()` call displays "root". -/
theorem c3_back_navigation_scenario :
    (LastPage sPodsDeploy).shownPage = "pods" ∧
    (LastPage (LastPage sPodsDeploy)).shownPage = RootPage := by
  decide

/-- C4 counterexample: the claim says a same-page `SwitchPage("pods", v)`
creates no duplicate history entry that would require two back-presses to
leave pods.  In the code the entry is enqueued unconditionally, so after a
same-page switch one `LastPage()` still displays "pods" and only a second
`LastPage()` reaches root: two back-presses are required. -/
theorem c4_counterexample :
    (LastPage (SwitchPage sOnPods "pods" podsView)).shownPage = "pods" ∧
    (LastPage (LastPage (SwitchPage sOnPods "pods" podsView))).shownPage =
      RootPage := by
  decide

/-- C4 amended: a same-page `SwitchPage(X, v)` emits no cancellation+restart
signal and still appends `{X, v}` to the Draw Queue; but that appended entry
is a duplicate history entry: the next `LastPage()` merely removes it,
restoring the previous queue and re-displaying the previous top — one
extra back-press is needed to leave X. -/
theorem c4_same_page_switch (s : AppState) (page : String) (p : Prim)
    (h : s.currentPage = page) :
    (SwitchPage s page p).switchSignals = s.switchSignals ∧
    (SwitchPage s page p).drawQueue = s.drawQueue ++ [⟨page, p⟩] ∧
    (LastPage (SwitchPage s page p)).drawQueue = s.drawQueue ∧
    (LastPage (SwitchPage s page p)).shownPage =
      (Queue.last s.drawQueue).pageName := by
  simp [SwitchPage, LastPage, Queue.enqueue, Queue.dequeue, Queue.last, h]

/-- C4 witness: the amended statement at the concrete state already on
"pods". -/
theorem c4_same_page_switch_witness :
    (SwitchPage sOnPods "pods" podsView).switchSignals =
      sOnPods.switchSignals ∧
    (SwitchPage sOnPods "pods" podsView).drawQueue =
      sOnPods.drawQueue ++ [⟨"pods", podsView⟩] ∧
    (LastPage (SwitchPage sOnPods "pods" podsView)).drawQueue =
      sOnPods.drawQueue ∧
    (LastPage (SwitchPage sOnPods "pods" podsView)).shownPage =
      (Queue.last sOnPods.drawQueue).pageName :=
  c4_same_page_switch sOnPods "pods" podsView (by decide)

/-- C5 counterexample: the claim says duplicate consecutive pushes for the
same currently active page name never occur and a same-page switch is a
no-op for the queue.  Concretely, switching to "pods" while already on
"pods" leaves the queue with two consecutive identical "pods" entries, and
the queue did change. -/
theorem c5_counterexample :
    (SwitchPage sOnPods "pods" podsView).drawQueue =
      [rootTrack, ⟨"pods", podsView⟩, ⟨"pods", podsView⟩] ∧
    ¬ (SwitchPage sOnPods "pods" podsView).drawQueue = sOnPods.drawQueue := by
  decide

/-- C5 amended: the Draw Queue top entry always reflects the page last
switched to, but a same-page switch is not a no-op for the queue: every
`SwitchPage` call appends its `{name, view}` entry, so duplicate
consecutive pushes for the same currently active page do occur. -/
theorem c5_top_reflects_last_switch (s : AppState) (page : String) (p : Prim) :
    Queue.last (SwitchPage s page p).drawQueue = ⟨page, p⟩ ∧
    (SwitchPage s page p).drawQueue = s.drawQueue ++ [⟨page, p⟩] := by
  by_cases h : s.currentPage = page <;>
    simp [SwitchPage, Queue.enqueue, Queue.last, h]

/-- C6 counterexample: the claim says a lookup for an unregistered current
page returns a root/default view.  In the code `CurrentPage` returns the
Go map's zero value — the nil pointer — which is not the root view. -/
theorem c6_counterexample :
    CurrentPage sUnregistered = Prim.goNil ∧
    ¬ CurrentPage sUnregistered = rootView := by
  decide

/-- C6 amended: `CurrentPage()` returns the view registered for the
Current Page Pointer when one exists; when no registration exists it
returns the nil zero value of the Go map lookup, not a root/default view,
and never panics (the lookup is total). -/
theorem c6_current_page_lookup (s : AppState) (v : Prim) :
    (lookupView s.tableViews s.currentPage = some v → CurrentPage s = v) ∧
    (lookupView s.tableViews s.currentPage = none →
      CurrentPage s = Prim.goNil) := by
  constructor <;> intro h <;> simp [CurrentPage, h]

/-- C6 witness: at `Init` the registered root view is returned; at the
unregistered state the nil zero value is returned. -/
theorem c6_current_page_lookup_witness :
    CurrentPage initState = rootView ∧
    CurrentPage sUnregistered = Prim.goNil :=
  ⟨(c6_current_page_lookup initState rootView).1 (by decide),
   (c6_current_page_lookup sUnregistered rootView).2 (by decide)⟩

/-- C7: a failed data re-fetch never stops the refresh loop.  Over any
ordered list of events the select statement observes: the loop exits
exactly when a cancellation is observed; `t.draw()` runs once per
successful fetch before the cancellation and never on a failed fetch (the
stale rendered content stays); each failed fetch before the cancellation
surfaces exactly one status update. -/
theorem c7_failure_never_stops_loop (evs : List RunEvent) :
    (run evs).exited = evs.contains RunEvent.cancel ∧
    (run evs).draws =
      (evs.takeWhile (fun e => !(e == RunEvent.cancel))).countP
        (fun e => e == RunEvent.sync true) ∧
    (run evs).statusUpdates =
      (evs.takeWhile (fun e => !(e == RunEvent.cancel))).countP
        (fun e => e == RunEvent.sync false) := by
  induction evs with
  | nil => simp [run]
  | cons e rest ih =>
    cases e with
    | cancel => simp [run, List.takeWhile]
    | sync ok =>
      cases ok <;>
        simp_all [run, tableRefresh, List.takeWhile, List.countP_cons,
          sync_beq_cancel, sync_beq_sync]

/-- C8 counterexample: the claim says `ShowMenu` adds no Draw Queue entry
for the overlay.  In the code it routes through `SwitchPage`, which always
enqueues, so showing the menu from the initial state appends the overlay
composite to the queue and the navigation history changes. -/
theorem c8_counterexample :
    (ShowMenu initState).drawQueue =
      initState.drawQueue ++ [⟨RootPage, Prim.menuComposite rootView⟩] ∧
    ¬ (ShowMenu initState).drawQueue = initState.drawQueue := by
  decide

/-- C8 amended: `ShowMenu` is idempotent — a second invocation while the
overlay is showing is a no-op — composites the menu over the current page
and emits no refresh-restart signal (the page name is unchanged), but it
does append one Draw Queue entry holding the overlay composite, so
navigation history is altered. -/
theorem c8_menu_overlay (s : AppState) :
    ShowMenu (ShowMenu s) = ShowMenu s ∧
    (s.showMenu = false →
      (ShowMenu s).drawQueue =
        s.drawQueue ++ [⟨s.currentPage, Prim.menuComposite (CurrentPage s)⟩] ∧
      (ShowMenu s).switchSignals = s.switchSignals ∧
      (ShowMenu s).currentPage = s.currentPage) ∧
    (s.showMenu = true → ShowMenu s = s) := by
  refine ⟨?_, ?_, ?_⟩
  · by_cases hm : s.showMenu <;>
      simp [ShowMenu, SwitchPage, Queue.enqueue, hm]
  · intro hm
    simp [ShowMenu, SwitchPage, Queue.enqueue, hm]
  · intro hm
    simp [ShowMenu, hm]

/-- C8 witness: the amended statement at the initial state, where the menu
is not yet showing. -/
theorem c8_menu_overlay_witness :
    ShowMenu (ShowMenu initState) = ShowMenu initState ∧
    (ShowMenu initState).drawQueue =
      initState.drawQueue ++
        [⟨initState.currentPage, Prim.menuComposite (CurrentPage initState)⟩] ∧
    (ShowMenu initState).switchSignals = initState.switchSignals ∧
    (ShowMenu initState).currentPage = initState.currentPage :=
  ⟨(c8_menu_overlay initState).1,
   ((c8_menu_overlay initState).2.1 (by decide)).1,
   ((c8_menu_overlay initState).2.1 (by decide)).2.1,
   ((c8_menu_overlay initState).2.1 (by decide)).2.2⟩

/-- C9: position memory round-trips: after `Record(kind, r, c)` — an
unconditional overwrite — the restore step of `tableView.init` for that
page yields exactly `(r, c)`, whatever was recorded before and whatever
the default selection is. -/
theorem c9_position_round_trip (rows : List (String × position))
    (kind : String) (r c : Int) (dflt : position) :
    restoredSelection (Record rows kind r c) kind dflt = ⟨r, c⟩ := by
  simp [restoredSelection, Record, List.find?]

/-- C10: `LastPage` never modifies the Current Page Pointer: `currentPage`
is unchanged, and therefore `CurrentPage()` afterwards still returns the
view of the page the user just navigated away from, even though the
displayed page and focus change to the popped queue top. -/
theorem c10_lastpage_preserves_pointer (s : AppState) :
    (LastPage s).currentPage = s.currentPage ∧
    CurrentPage (LastPage s) = CurrentPage s := by
  simp [LastPage, CurrentPage, lookupView]

end Axe
